import Mathlib

/-!
Verification of the booking-availability resolver and the checkout orchestration
pipeline of the Glow storefront.  The definitions below are a shallow embedding of
`src/src/components/BookNow.jsx` (fallback slot generation and the time-selection
view), the storefront/booking API client (`getBookings`, `getBookingSettings`,
`fetchProductArticleNumber`, `createCheckoutSession`) and the proxy handler
`POST /api/checkout` in `src/server.js`.

Conventions: instants and durations are measured in minutes; a calendar date is
represented by the instant of its midnight (`base`) together with its JS weekday
index (`Date.getDay()`, 0 = Sunday); a JS `"HH:MM"` string is represented by the
pair of numbers its `split(":").map(Number)` produces; a missing or empty field is
`none`, matching JS truthiness on strings and objects.
-/

namespace Glow

/-- A booking as consumed by the conflict check: a status string (absent for
legacy records) and the start and end instants of the reservation. -/
structure Booking where
  status : Option String
  start : Nat
  stop : Nat
deriving DecidableEq, Repr

/-- Per-weekday opening hours record: `isOpen`, `start`, `end` may each be absent. -/
structure DayHours where
  isOpen : Option Bool
  start : Option (Nat × Nat)
  endTime : Option (Nat × Nat)
deriving DecidableEq, Repr

/-- The `calendarBehavior` fallback block of the booking settings. -/
structure CalendarBehavior where
  startTime : Option (Nat × Nat)
  endTime : Option (Nat × Nat)
  timeSlotInterval : Option Nat
deriving DecidableEq, Repr

/-- The `openingHours` object, keyed by day name in the source. -/
structure OpeningHoursMap where
  sunday : Option DayHours
  monday : Option DayHours
  tuesday : Option DayHours
  wednesday : Option DayHours
  thursday : Option DayHours
  friday : Option DayHours
  saturday : Option DayHours
deriving DecidableEq, Repr

/-- Lookup `settings.openingHours[dayOfWeek]` where the day name is selected by
`["sunday",...,"saturday"][date.getDay()]`; an out-of-range index yields nothing. -/
def OpeningHoursMap.dayGet (m : OpeningHoursMap) (day : Nat) : Option DayHours :=
  match day with
  | 0 => m.sunday
  | 1 => m.monday
  | 2 => m.tuesday
  | 3 => m.wednesday
  | 4 => m.thursday
  | 5 => m.friday
  | 6 => m.saturday
  | _ => none

/-- Booking settings: per-day opening hours plus the calendar-behavior fallback. -/
structure Settings where
  openingHours : Option OpeningHoursMap
  calendarBehavior : Option CalendarBehavior
deriving DecidableEq, Repr

/-- A calendar date: `base` is the instant of its midnight (minutes) and `day`
its JS weekday index. -/
structure DateVal where
  base : Nat
  day : Nat
deriving DecidableEq, Repr

/-- A generated slot: absolute start and end instants plus the minutes-of-day of
the start (the `value`/`display` "HH:mm" string of the source). -/
structure TimeSlot where
  start : Nat
  stop : Nat
  value : Nat
deriving DecidableEq, Repr

/-- The JS optional chain `settings?.openingHours?.[dayOfWeek]`. -/
def dayHoursFor (settings : Option Settings) (day : Nat) : Option DayHours :=
  settings.bind fun s => s.openingHours.bind fun oh => oh.dayGet day

/-- The JS optional chain `settings?.calendarBehavior`. -/
def calBehaviorOf (settings : Option Settings) : Option CalendarBehavior :=
  settings.bind fun s => s.calendarBehavior

/-- Outcome of the startHour/endHour selection in `generateTimeSlots`. -/
inductive HourRange where
  | closedDay : HourRange
  | window : Nat → Nat → HourRange
  | notConfigured : HourRange
deriving DecidableEq, Repr

/-- The if/else-if chain of BookNow.jsx:748-790.  Day-specific hours are used when
the record exists, is not explicitly closed, and has both start and end; the hour
range keeps only the hour component of the opening time and extends the end hour
by one (both arms of the source ternary produce `endHours + 1`).  An explicitly
closed day returns early; otherwise the calendarBehavior start/end hours apply,
and with neither source of hours the generator gives up. -/
def resolveStartEndHour (dayOH : Option DayHours) (cb : Option CalendarBehavior) : HourRange :=
  let cbWindow : HourRange :=
    match cb with
    | some c =>
      match c.startTime, c.endTime with
      | some (sh, _), some (eh, _) => HourRange.window sh (eh + 1)
      | _, _ => HourRange.notConfigured
    | none => HourRange.notConfigured
  match dayOH with
  | some d =>
    if d.isOpen = some false then HourRange.closedDay
    else
      match d.start, d.endTime with
      | some (sh, _), some (eh, _) => HourRange.window sh (eh + 1)
      | _, _ => cbWindow
  | none => cbWindow

/-- The closing-time resolution of BookNow.jsx:797-807: the day-specific end when
the day is not explicitly closed and carries an end time, else the
calendarBehavior end time. -/
def resolveActualEnd (dayOH : Option DayHours) (cb : Option CalendarBehavior) :
    Option (Nat × Nat) :=
  match dayOH with
  | some d =>
    if d.isOpen ≠ some false ∧ d.endTime.isSome then d.endTime
    else cb.bind fun c => c.endTime
  | none => cb.bind fun c => c.endTime

/-- A closing time as minutes of day. -/
def closingMinutes (actualEnd : Option (Nat × Nat)) : Option Nat :=
  actualEnd.map fun e => e.1 * 60 + e.2

/-- `settings?.calendarBehavior?.timeSlotInterval || 30` (JS: 0 is falsy). -/
def resolvedSlotInterval (settings : Option Settings) : Nat :=
  match settings.bind fun s => s.calendarBehavior.bind fun c => c.timeSlotInterval with
  | some n => if n = 0 then 30 else n
  | none => 30

/-- The inner loop `for (minute = 0; minute < 60; minute += slotInterval)`:
the multiples of the interval below 60. -/
def minuteSteps (interval : Nat) : List Nat :=
  (List.range (59 / interval + 1)).map fun k => k * interval

/-- One iteration of the slot-loop body (BookNow.jsx:818-871): skip when the start
is at or after closing; skip when the end, as minutes of day (the source reads it
back from a Date, hence the reduction modulo 1440), is at or after closing; skip
on a booking conflict; otherwise emit the slot. -/
def candidateSlot (base durationMin : Nat) (closing : Option Nat)
    (existingBookings : List Booking) (hour minute : Nat) : Option TimeSlot :=
  let slotStartMinutes := hour * 60 + minute
  if closing.any fun c => slotStartMinutes ≥ c then none
  else
    let slotStart := base + slotStartMinutes
    let slotEnd := slotStart + durationMin
    let slotEndMinutes := (slotStartMinutes + durationMin) % 1440
    if closing.any fun c => slotEndMinutes ≥ c then none
    else if existingBookings.any fun b => slotStart < b.stop && slotEnd > b.start then none
    else some { start := slotStart, stop := slotEnd, value := slotStartMinutes }

/-- `generateTimeSlots(date, durationMin, existingBookings, settings)` of
BookNow.jsx:731-880, as the composition of the hour-range resolution and the
double loop over hours and minute steps. -/
def generateTimeSlots (date : DateVal) (durationMin : Nat)
    (existingBookings : List Booking) (settings : Option Settings) : List TimeSlot :=
  match resolveStartEndHour (dayHoursFor settings date.day) (calBehaviorOf settings) with
  | HourRange.closedDay => []
  | HourRange.notConfigured => []
  | HourRange.window startHour endHour =>
    (List.range' startHour (endHour - startHour)).flatMap fun hour =>
      (minuteSteps (resolvedSlotInterval settings)).filterMap fun minute =>
        candidateSlot date.base durationMin
          (closingMinutes (resolveActualEnd (dayHoursFor settings date.day)
            (calBehaviorOf settings)))
          existingBookings hour minute

/-- Outcome of the bookings fetch: a thrown fetch, a non-2xx response, or a JSON
body whose `bookings` field may be absent. -/
inductive BookingsResponse where
  | networkError : BookingsResponse
  | httpError : Nat → BookingsResponse
  | okJson : Option (List Booking) → BookingsResponse
deriving DecidableEq, Repr

/-- Result shape of the `getBookings` client call. -/
structure BookingsResult where
  success : Bool
  bookings : List Booking
  error : Option String
deriving DecidableEq, Repr

/-- The booking API client `getBookings` (response handling): failures yield an
empty list; a successful response keeps
`(data.bookings || []).filter(b => b.status !== "canceled")`. -/
def getBookings (resp : BookingsResponse) : BookingsResult :=
  match resp with
  | BookingsResponse.networkError =>
    { success := false, bookings := [], error := some "network error" }
  | BookingsResponse.httpError s =>
    { success := false, bookings := []
      error := some ("Failed to fetch bookings: " ++ toString s) }
  | BookingsResponse.okJson body =>
    { success := true
      bookings := (body.getD []).filter fun b => b.status ≠ some "canceled"
      error := none }

/-- The hardcoded default settings of `getBookingSettings`: a 09:00-17:00 window
with 30-minute steps and no day-specific hours. -/
def defaultSettings : Settings :=
  { openingHours := none
    calendarBehavior :=
      some { startTime := some (9, 0), endTime := some (17, 0), timeSlotInterval := some 30 } }

/-- Parsed JSON body of the booking-settings endpoint. -/
structure SettingsBody where
  success : Bool
  settings : Option Settings
deriving DecidableEq, Repr

/-- Outcome of the booking-settings fetch: thrown, or a response with an ok flag,
status, and JSON body (`none` models a body that fails to parse). -/
inductive SettingsResponse where
  | networkError : SettingsResponse
  | httpResp : Bool → Nat → Option SettingsBody → SettingsResponse
deriving DecidableEq, Repr

/-- Result shape of the `getBookingSettings` client call. -/
structure SettingsResult where
  success : Bool
  settings : Settings
  usingDefaults : Bool
deriving DecidableEq, Repr

/-- The booking API client `getBookingSettings`: every failure path (thrown fetch,
non-ok status, unparseable body, body without `success` or `settings`) substitutes
`defaultSettings` with `usingDefaults := true` and still reports success. -/
def getBookingSettings (resp : SettingsResponse) : SettingsResult :=
  match resp with
  | SettingsResponse.networkError =>
    { success := true, settings := defaultSettings, usingDefaults := true }
  | SettingsResponse.httpResp ok _ body =>
    if ok then
      match body with
      | some b =>
        if b.success then
          match b.settings with
          | some s => { success := true, settings := s, usingDefaults := false }
          | none => { success := true, settings := defaultSettings, usingDefaults := true }
        else { success := true, settings := defaultSettings, usingDefaults := true }
      | none => { success := true, settings := defaultSettings, usingDefaults := true }
    else { success := true, settings := defaultSettings, usingDefaults := true }

/-- What the time-selection section of the BookNow form shows once a date is
picked (BookNow.jsx:1383-1406). -/
inductive TimeSelectionView where
  | loadingMessage : TimeSelectionView
  | fullyBookedMessage : TimeSelectionView
  | slotsGrid : List TimeSlot → TimeSelectionView
deriving DecidableEq, Repr

/-- The render decision of BookNow.jsx:1383-1392: a loading text while slots load,
the fixed fully-booked block whenever the slot list is empty, else the grid. -/
def timeSelectionView (loadingSlots : Bool) (availableTimeSlots : List TimeSlot) :
    TimeSelectionView :=
  if loadingSlots then TimeSelectionView.loadingMessage
  else if availableTimeSlots.isEmpty then TimeSelectionView.fullyBookedMessage
  else TimeSelectionView.slotsGrid availableTimeSlots

/-- JS truthiness of a string-or-missing value: absent and empty are falsy. -/
def truthyStr : Option String → Bool
  | some s => s ≠ ""
  | none => false

/-- JS `a || b` on string-or-missing values. -/
def jsOr (a b : Option String) : Option String := if truthyStr a then a else b

/-- JS `String.prototype.includes(pat)`: the pattern occurs as a contiguous
substring. -/
def jsIncludes (s pat : String) : Bool := decide (pat.toList <:+: s.toList)

/-- A catalog variant as returned by the storefront products API. -/
structure Variant where
  articleNumber : Option String
  stripePriceId : Option String
deriving DecidableEq, Repr

/-- A catalog product: the possible id fields probed by the lookup, and the
variant list (absent when the field is missing or not an array). -/
structure Product where
  stripeProductId : Option String
  productId : Option String
  product_id : Option String
  id : Option String
  variants : Option (List Variant)
deriving DecidableEq, Repr

/-- Parsed body of the products API response. -/
structure ProductsData where
  success : Bool
  products : Option (List Product)
deriving DecidableEq, Repr

/-- The storefront client `fetchProductArticleNumber` (pure part).  `resp = none`
models a thrown fetch, a non-ok status or a non-JSON body, which all return null.
Pass 1 scans every product with a variant array for the first variant whose
`stripePriceId` equals the argument and returns that variant's `articleNumber`
even when that field is itself missing (the source returns it unconditionally).
Pass 2, only reached when pass 1 matched nothing and `productId` is truthy, takes
the first product whose probed id equals `productId` and whose first variant has
a truthy `articleNumber`. -/
def fetchProductArticleNumber (resp : Option ProductsData)
    (stripePriceId productId : Option String) : Option String :=
  match resp with
  | none => none
  | some data =>
    if data.success then
      match data.products with
      | some products =>
        match products.findSome? (fun p =>
            match p.variants with
            | some vs =>
              (vs.find? fun v => v.stripePriceId == stripePriceId).map fun v => v.articleNumber
            | none => none) with
        | some art => art
        | none =>
          if truthyStr productId then
            products.findSome? fun p =>
              let prodId := jsOr p.stripeProductId (jsOr p.productId (jsOr p.product_id p.id))
              match p.variants with
              | some (v :: _) =>
                if prodId == productId && truthyStr v.articleNumber then v.articleNumber
                else none
              | _ => none
          else none
      | none => none
    else none

/-- A cart item at checkout time.  `price` is the unit price in SEK; the payload
carries `priceSEK = Math.round(price * 100)`, modelled as `price * 100`. -/
structure CartItem where
  articleNumber : Option String
  variantId : Option String
  productId : Option String
  stripePriceId : Option String
  quantity : Nat
  price : Nat
deriving DecidableEq, Repr

/-- A line of the checkout payload sent to the storefront checkout endpoint. -/
structure PayloadItem where
  variantId : Option String
  quantity : Nat
  stripePriceId : Option String
  priceSEK : Nat
deriving DecidableEq, Repr

/-- The first phase of `createCheckoutSession`: each item keeps
`item.articleNumber || item.variantId`, and when that is falsy the catalog lookup
`fetchProductArticleNumber(getCheckoutPriceId(item), item.productId)` fills it
(possibly with nothing). -/
def itemsWithArticleNumbers (catalog : Option ProductsData)
    (getCheckoutPriceId : CartItem → Option String) (cartItems : List CartItem) :
    List CartItem :=
  cartItems.map fun item =>
    let articleNumber := jsOr item.articleNumber item.variantId
    let articleNumber :=
      if truthyStr articleNumber then articleNumber
      else fetchProductArticleNumber catalog (getCheckoutPriceId item) item.productId
    { item with articleNumber := articleNumber }

/-- The payload mapping of `createCheckoutSession`:
`variantId = item.articleNumber || item.variantId` on the resolved items. -/
def payloadItems (catalog : Option ProductsData)
    (getCheckoutPriceId : CartItem → Option String) (cartItems : List CartItem) :
    List PayloadItem :=
  (itemsWithArticleNumbers catalog getCheckoutPriceId cartItems).map fun item =>
    { variantId := jsOr item.articleNumber item.variantId
      quantity := item.quantity
      stripePriceId := getCheckoutPriceId item
      priceSEK := item.price * 100 }

/-- Parsed JSON body of the checkout endpoint response. -/
structure CheckoutBody where
  success : Bool
  checkoutUrl : Option String
  sessionId : Option String
  orderId : Option String
  error : Option String
  message : Option String
  errorMessage : Option String
deriving DecidableEq, Repr

/-- Outcome of the POST to the checkout endpoint: a thrown fetch, or a response
with ok flag, status, a flag for a JSON content type, and the parsed body
(`none` models a body that fails to parse). -/
inductive CheckoutFetch where
  | threw : CheckoutFetch
  | resp : Bool → Nat → Bool → Option CheckoutBody → CheckoutFetch
deriving DecidableEq, Repr

/-- The result shape `createCheckoutSession` returns to its caller. -/
structure CheckoutResult where
  success : Bool
  error : Option String
  status : Option Nat
deriving DecidableEq, Repr

/-- The fixed missing-article-number message of `createCheckoutSession`. -/
def missingVariantMessage : String :=
  "Några produkter saknar artikelnummer (articleNumber). Produkter måste inkludera articleNumber från produktvarianten. Hämta från /storefront/:tenant/products eller lägg till manuellt."

/-- The fixed replacement message for upstream out-of-stock rejections. -/
def outOfStockMessage : String :=
  "Produkten är tyvärr slutsåld. Vänligen ta bort den från varukorgen och försök igen."

/-- The default failure message of `createCheckoutSession`. -/
def genericCheckoutErrorMessage : String := "Kunde inte skapa checkout-session. Försök igen."

/-- The failure-message derivation of `createCheckoutSession`: start from
`data.error || data.message || data.errorMessage || default`; a message containing
"Out of stock"/"out of stock" is replaced wholesale by `outOfStockMessage`; a
message merely containing "stock" is prefixed with "Lagerproblem: ". -/
def deriveCheckoutErrorMessage (data : Option CheckoutBody) : String :=
  match data with
  | none => genericCheckoutErrorMessage
  | some d =>
    let errorMessage :=
      (jsOr d.error (jsOr d.message (jsOr d.errorMessage (some genericCheckoutErrorMessage)))).getD ""
    if jsIncludes errorMessage "Out of stock" || jsIncludes errorMessage "out of stock" then
      outOfStockMessage
    else if jsIncludes errorMessage "stock" then "Lagerproblem: " ++ errorMessage
    else errorMessage

/-- The storefront client `createCheckoutSession` (pure core).  `catalog` is the
products API outcome feeding the article-number lookups, `fetchRes` the outcome
of the POST to the checkout endpoint.  The second component is the payload the
function submits; it is `none` exactly when the function returns on the
missing-variant validation, before any request is issued.  Success is returned
only on `response.ok && data.success && data.checkoutUrl`. -/
def createCheckoutSession (cartItems : List CartItem) (catalog : Option ProductsData)
    (getCheckoutPriceId : CartItem → Option String) (fetchRes : CheckoutFetch) :
    CheckoutResult × Option (List PayloadItem) :=
  let items := payloadItems catalog getCheckoutPriceId cartItems
  let missingVariantIds := items.filter fun i => !truthyStr i.variantId
  if missingVariantIds.length > 0 then
    ({ success := false, error := some missingVariantMessage, status := some 400 }, none)
  else
    match fetchRes with
    | CheckoutFetch.threw =>
      ({ success := false, error := some "Ett fel uppstod vid checkout. Försök igen."
         status := some 500 }, some items)
    | CheckoutFetch.resp ok status ctJson body =>
      if ctJson then
        match body with
        | none =>
          ({ success := false
             error := some ("Ogiltigt svar från servern (" ++ toString status ++ ")")
             status := some status }, some items)
        | some data =>
          if ok && data.success && truthyStr data.checkoutUrl then
            ({ success := true, error := none, status := none }, some items)
          else
            ({ success := false, error := some (deriveCheckoutErrorMessage (some data))
               status := some status }, some items)
      else
        ({ success := false
           error := some (if status = 403 then
               "Ogiltig eller saknad CSRF-token. Ladda om sidan och försök igen."
             else "Serverfel: " ++ toString status)
           status := some status }, some items)

/-- Parsed JSON body returned by the Source Portal checkout backend. -/
structure BackendData where
  success : Bool
  checkoutUrl : Option String
  sessionId : Option String
  orderId : Option String
  expiresAt : Option String
  error : Option String
  message : Option String
deriving DecidableEq, Repr

/-- Outcome of the proxy's POST to the backend checkout endpoint: a non-JSON
content type, a JSON body that fails to parse, or a parsed body, each with the ok
flag and status of the response. -/
inductive BackendFetch where
  | nonJson : Bool → Nat → BackendFetch
  | parseFailed : Bool → Nat → BackendFetch
  | json : Bool → Nat → BackendData → BackendFetch
deriving DecidableEq, Repr

/-- Outcome of the abandoned-cart registration call `POST /api/carts/track`:
thrown, non-ok response, or an ok response whose body carries a success flag. -/
inductive TrackOutcome where
  | threw : TrackOutcome
  | httpNotOk : TrackOutcome
  | ok : Bool → TrackOutcome
deriving DecidableEq, Repr

/-- What the proxy handler sends back to the frontend. -/
structure ServerResponse where
  status : Nat
  success : Bool
  error : Option String
  checkoutUrl : Option String
  sessionId : Option String
  orderId : Option String
deriving DecidableEq, Repr

/-- server.js `POST /api/checkout`, from the backend-response handling to the
final `res.json` (steps 7-9).  Non-JSON or unparseable bodies fail with a generic
message at the backend status; a non-ok backend response passes
`backendData.error || backendData.message || "Checkout failed"` through (the
stock/onboarding checks there only log); an ok response without a success flag or
checkout URL fails with status 500; otherwise the session is registered for
abandoned-cart tracking — the outcome `track` of that call is only logged — and
the handler responds 200 with the session data. -/
def handleCheckoutBackendResponse (fetchRes : BackendFetch) (track : TrackOutcome) :
    ServerResponse :=
  match fetchRes with
  | BackendFetch.nonJson _ status =>
    { status := status, success := false
      error := some "Invalid response from checkout service"
      checkoutUrl := none, sessionId := none, orderId := none }
  | BackendFetch.parseFailed _ status =>
    { status := status, success := false
      error := some "Invalid response from checkout service"
      checkoutUrl := none, sessionId := none, orderId := none }
  | BackendFetch.json ok status d =>
    if !ok then
      { status := status, success := false
        error := some ((jsOr d.error (jsOr d.message (some "Checkout failed"))).getD "")
        checkoutUrl := none, sessionId := none, orderId := none }
    else if !d.success || !truthyStr d.checkoutUrl then
      { status := 500, success := false
        error := some "Invalid response from checkout service"
        checkoutUrl := none, sessionId := none, orderId := none }
    else
      let _trackLogged := track
      { status := 200, success := true, error := none
        checkoutUrl := d.checkoutUrl, sessionId := d.sessionId, orderId := d.orderId }

/-! Concrete fixtures used by witnesses and counterexamples. -/

/-- A Monday whose midnight is instant 0. -/
def mondayDate : DateVal := { base := 0, day := 1 }

/-- Opening hours for a given Monday record, all other days absent. -/
def mondaySettings (d : DayHours) : Settings :=
  { openingHours := some
      { sunday := none, monday := some d, tuesday := none, wednesday := none
        thursday := none, friday := none, saturday := none }
    calendarBehavior := none }

/-- Monday open 09:00-17:00. -/
def demoSettings : Settings :=
  mondaySettings { isOpen := some true, start := some (9, 0), endTime := some (17, 0) }

/-- Monday open 09:30-17:00: an opening time with a non-zero minutes component. -/
def halfPastSettings : Settings :=
  mondaySettings { isOpen := some true, start := some (9, 30), endTime := some (17, 0) }

/-- Monday explicitly closed. -/
def closedMondaySettings : Settings :=
  mondaySettings { isOpen := some false, start := some (9, 0), endTime := some (17, 0) }

/-- An active booking covering the whole day and more. -/
def fullDayBooking : Booking := { status := none, start := 0, stop := 100000 }

/-- A canceled booking covering 10:00-11:00. -/
def canceledBooking : Booking := { status := some "canceled", start := 600, stop := 660 }

/-- An active booking covering 10:00-11:00. -/
def tenToElevenBooking : Booking := { status := none, start := 600, stop := 660 }

/-- The 09:00-10:00 slot of a 60-minute service on `mondayDate`. -/
def nineOClockSlot : TimeSlot := { start := 540, stop := 600, value := 540 }

/-- A cart item already carrying an article number. -/
def resolvedItem : CartItem :=
  { articleNumber := some "VALJ-S-Black", variantId := none, productId := some "prod_1"
    stripePriceId := some "price_1", quantity := 1, price := 299 }

/-- A cart item with no article number, no variant id, and no catalog match. -/
def unresolvedItem : CartItem :=
  { articleNumber := none, variantId := none, productId := some "prod_2"
    stripePriceId := some "price_2", quantity := 1, price := 199 }

/-- An upstream checkout rejection whose message reports an out-of-stock product. -/
def stockBody : CheckoutBody :=
  { success := false, checkoutUrl := none, sessionId := none, orderId := none
    error := some "Out of stock: Hair Serum", message := none, errorMessage := none }

/-- A successful backend checkout body. -/
def backendOkData : BackendData :=
  { success := true, checkoutUrl := some "https://checkout.stripe.com/c/pay/cs_1"
    sessionId := some "cs_1", orderId := some "order_1", expiresAt := none
    error := none, message := none }

/-! Helper lemmas about the slot generator. -/

theorem candidateSlot_eq_some {base durationMin : Nat} {closing : Option Nat}
    {bs : List Booking} {hour minute : Nat} {s : TimeSlot}
    (h : candidateSlot base durationMin closing bs hour minute = some s) :
    s.value = hour * 60 + minute ∧ s.start = base + s.value ∧
      s.stop = s.start + durationMin ∧
      (∀ c, closing = some c → s.value < c ∧ (s.value + durationMin) % 1440 < c) ∧
      (∀ b ∈ bs, ¬(s.start < b.stop ∧ s.stop > b.start)) := by
  simp only [candidateSlot] at h
  split at h
  · exact absurd h (by simp)
  · split at h
    · exact absurd h (by simp)
    · split at h
      · exact absurd h (by simp)
      · rename_i hstart hend hconf
        injection h with h
        subst h
        refine ⟨rfl, rfl, rfl, ?_, ?_⟩
        · intro c hc
          subst hc
          simp only [Option.any_some, decide_eq_true_eq, Nat.not_le] at hstart hend
          show hour * 60 + minute < c ∧ (hour * 60 + minute + durationMin) % 1440 < c
          omega
        · intro b hb hover
          refine hconf ?_
          simp only [List.any_eq_true, Bool.and_eq_true, decide_eq_true_eq]
          exact ⟨b, hb, hover.1, hover.2⟩

theorem candidateSlot_with_bookings {base durationMin : Nat} {closing : Option Nat}
    (bs : List Booking) {hour minute : Nat} {s : TimeSlot}
    (h : candidateSlot base durationMin closing [] hour minute = some s)
    (hfree : ∀ b ∈ bs, ¬(s.start < b.stop ∧ s.stop > b.start)) :
    candidateSlot base durationMin closing bs hour minute = some s := by
  obtain ⟨hv, hs, he, -, -⟩ := candidateSlot_eq_some h
  simp only [candidateSlot] at h ⊢
  split at h
  · exact absurd h (by simp)
  · split at h
    · exact absurd h (by simp)
    · split at h
      · exact absurd h (by simp)
      · rename_i hstart hend hconf
        rw [if_neg hstart, if_neg hend, if_neg]
        · exact h
        · simp only [List.any_eq_true, Bool.and_eq_true, decide_eq_true_eq, not_exists]
          intro b hP
          obtain ⟨hb, h1, h2⟩ := hP
          exact hfree b hb (by rw [he, hs, hv]; exact ⟨h1, h2⟩)

theorem mem_generateTimeSlots_iff {date : DateVal} {durationMin : Nat}
    {bs : List Booking} {settings : Option Settings} {sh eh : Nat}
    (hw : resolveStartEndHour (dayHoursFor settings date.day) (calBehaviorOf settings)
        = HourRange.window sh eh) {s : TimeSlot} :
    s ∈ generateTimeSlots date durationMin bs settings ↔
      ∃ hour minute, hour ∈ List.range' sh (eh - sh) ∧
        minute ∈ minuteSteps (resolvedSlotInterval settings) ∧
        candidateSlot date.base durationMin
          (closingMinutes (resolveActualEnd (dayHoursFor settings date.day)
            (calBehaviorOf settings))) bs hour minute = some s := by
  unfold generateTimeSlots
  rw [hw]
  simp only [List.mem_flatMap, List.mem_filterMap]
  constructor
  · rintro ⟨hour, hh, minute, hm, hc⟩
    exact ⟨hour, minute, hh, hm, hc⟩
  · rintro ⟨hour, minute, hh, hm, hc⟩
    exact ⟨hour, hh, minute, hm, hc⟩

theorem generateTimeSlots_eq_nil_of_closed {date : DateVal} {durationMin : Nat}
    {bs : List Booking} {settings : Option Settings}
    (hw : resolveStartEndHour (dayHoursFor settings date.day) (calBehaviorOf settings)
        = HourRange.closedDay) :
    generateTimeSlots date durationMin bs settings = [] := by
  unfold generateTimeSlots
  rw [hw]

theorem generateTimeSlots_eq_nil_of_notConfigured {date : DateVal} {durationMin : Nat}
    {bs : List Booking} {settings : Option Settings}
    (hw : resolveStartEndHour (dayHoursFor settings date.day) (calBehaviorOf settings)
        = HourRange.notConfigured) :
    generateTimeSlots date durationMin bs settings = [] := by
  unfold generateTimeSlots
  rw [hw]

/-- C1: for every date with a resolved closing time, every slot the fallback
generator returns starts strictly before closing and, as minutes of day, ends
strictly before closing; in particular a slot ending exactly at closing never
appears, and a candidate starting at or after closing is rejected. -/
theorem slots_respect_closing_time (date : DateVal) (durationMin : Nat)
    (bs : List Booking) (settings : Option Settings) (s : TimeSlot) (c : Nat)
    (hs : s ∈ generateTimeSlots date durationMin bs settings)
    (hc : closingMinutes (resolveActualEnd (dayHoursFor settings date.day)
        (calBehaviorOf settings)) = some c) :
    s.value < c ∧ (s.value + durationMin) % 1440 < c := by
  cases hw : resolveStartEndHour (dayHoursFor settings date.day) (calBehaviorOf settings) with
  | closedDay => rw [generateTimeSlots_eq_nil_of_closed hw] at hs; cases hs
  | notConfigured => rw [generateTimeSlots_eq_nil_of_notConfigured hw] at hs; cases hs
  | window sh eh =>
    rw [mem_generateTimeSlots_iff hw] at hs
    obtain ⟨hour, minute, -, -, hcand⟩ := hs
    exact (candidateSlot_eq_some hcand).2.2.2.1 c hc

/-- Witness for C1: the 09:00 slot of a 60-minute service on an open 09:00-17:00
Monday starts and ends before the 17:00 closing time. -/
theorem slots_respect_closing_time_witness :
    nineOClockSlot.value < 1020 ∧ (nineOClockSlot.value + 60) % 1440 < 1020 :=
  slots_respect_closing_time mondayDate 60 [] (some demoSettings) nineOClockSlot 1020
    (by decide) (by decide)

/-- C2: the availability computation ignores canceled bookings completely: adding
a booking with status canceled to the bookings payload leaves the generated slot
list unchanged, because getBookings filters canceled bookings out before the
conflict check runs. -/
theorem canceled_bookings_ignored (date : DateVal) (durationMin : Nat)
    (b : Booking) (bsRest : List Booking) (settings : Option Settings)
    (hb : b.status = some "canceled") :
    generateTimeSlots date durationMin
        (getBookings (BookingsResponse.okJson (some (b :: bsRest)))).bookings settings
      = generateTimeSlots date durationMin
        (getBookings (BookingsResponse.okJson (some bsRest))).bookings settings := by
  simp [getBookings, List.filter_cons, hb]

/-- Witness for C2: a canceled 10:00-11:00 booking leaves the Monday slot list of
a 60-minute service exactly as if no booking existed, so the 10:00 slot is still
offered. -/
theorem canceled_bookings_ignored_witness :
    generateTimeSlots mondayDate 60
        (getBookings (BookingsResponse.okJson (some [canceledBooking]))).bookings
        (some demoSettings)
      = generateTimeSlots mondayDate 60
        (getBookings (BookingsResponse.okJson (some []))).bookings (some demoSettings) :=
  canceled_bookings_ignored mondayDate 60 canceledBooking [] (some demoSettings) (by decide)

/-- C3 counterexample: with Monday opening hours 09:30-17:00 the generator offers
a slot starting 09:00 — before the configured opening time — because only the
hour component of the opening time bounds the enumeration. -/
theorem slot_before_opening_counterexample :
    ({ start := 540, stop := 570, value := 540 } : TimeSlot)
        ∈ generateTimeSlots mondayDate 30 [] (some halfPastSettings)
      ∧ 540 < 9 * 60 + 30 := by decide

/-- C3 amended: slot starts are enumerated from the hour component of the
resolved opening time, so every offered slot starts at or after the top of the
opening hour; when the opening time is on the hour this is the opening time
itself, but a non-zero minutes component of the opening time is ignored. -/
theorem slots_start_at_or_after_opening_hour (date : DateVal) (durationMin : Nat)
    (bs : List Booking) (settings : Option Settings) (sh eh : Nat) (s : TimeSlot)
    (hw : resolveStartEndHour (dayHoursFor settings date.day) (calBehaviorOf settings)
        = HourRange.window sh eh)
    (hs : s ∈ generateTimeSlots date durationMin bs settings) :
    sh * 60 ≤ s.value := by
  rw [mem_generateTimeSlots_iff hw] at hs
  obtain ⟨hour, minute, hh, -, hcand⟩ := hs
  obtain ⟨hv, -, -, -, -⟩ := candidateSlot_eq_some hcand
  rw [List.mem_range'_1] at hh
  omega

/-- Witness for C3 amended: on the 09:00-17:00 Monday the 09:00 slot starts at
the top of the opening hour. -/
theorem slots_start_at_or_after_opening_hour_witness : 9 * 60 ≤ nineOClockSlot.value :=
  slots_start_at_or_after_opening_hour mondayDate 60 [] (some demoSettings) 9 18
    nineOClockSlot (by decide) (by decide)

/-- C4: the booking-conflict check has half-open interval semantics: an
enumerated candidate that passes the closing filters is offered iff no booking
satisfies slotStart < bookingEnd and slotEnd > bookingStart, and bookings exactly
adjacent to the slot (booking start equal to the slot end, or booking end equal
to the slot start) never exclude it. -/
theorem conflict_check_half_open (date : DateVal) (durationMin : Nat)
    (bs : List Booking) (settings : Option Settings) (sh eh hour minute : Nat)
    (s : TimeSlot)
    (hw : resolveStartEndHour (dayHoursFor settings date.day) (calBehaviorOf settings)
        = HourRange.window sh eh)
    (hhour : hour ∈ List.range' sh (eh - sh))
    (hmin : minute ∈ minuteSteps (resolvedSlotInterval settings))
    (hcand : candidateSlot date.base durationMin
        (closingMinutes (resolveActualEnd (dayHoursFor settings date.day)
          (calBehaviorOf settings))) [] hour minute = some s) :
    (s ∈ generateTimeSlots date durationMin bs settings ↔
      ∀ b ∈ bs, ¬(s.start < b.stop ∧ s.stop > b.start)) ∧
    ((∀ b ∈ bs, s.stop = b.start ∨ b.stop = s.start) →
      s ∈ generateTimeSlots date durationMin bs settings) := by
  have main : s ∈ generateTimeSlots date durationMin bs settings ↔
      ∀ b ∈ bs, ¬(s.start < b.stop ∧ s.stop > b.start) := by
    constructor
    · intro hmem
      rw [mem_generateTimeSlots_iff hw] at hmem
      obtain ⟨h', m', -, -, hcand'⟩ := hmem
      exact (candidateSlot_eq_some hcand').2.2.2.2
    · intro hfree
      rw [mem_generateTimeSlots_iff hw]
      exact ⟨hour, minute, hhour, hmin, candidateSlot_with_bookings bs hcand hfree⟩
  refine ⟨main, fun hadj => main.mpr ?_⟩
  intro b hb hover
  rcases hadj b hb with h | h
  · omega
  · omega

/-- Witness for C4: the 09:00-10:00 slot is still offered when the only booking
runs 10:00-11:00, exactly adjacent to the slot end. -/
theorem conflict_check_half_open_witness :
    nineOClockSlot ∈ generateTimeSlots mondayDate 60 [tenToElevenBooking] (some demoSettings) :=
  (conflict_check_half_open mondayDate 60 [tenToElevenBooking] (some demoSettings) 9 18 9 0
      nineOClockSlot (by decide) (by decide) (by decide) (by decide)).2 (by decide)

/-- C9 counterexample: an explicitly closed Monday and an open but fully booked
Monday produce the same empty slot list, and the caller renders the identical
fully-booked message for both — there is no distinct Closed outcome. -/
theorem closed_not_distinct_counterexample :
    generateTimeSlots mondayDate 30 [] (some closedMondaySettings)
        = generateTimeSlots mondayDate 30 [fullDayBooking] (some demoSettings)
      ∧ timeSelectionView false
          (generateTimeSlots mondayDate 30 [] (some closedMondaySettings))
        = TimeSelectionView.fullyBookedMessage
      ∧ timeSelectionView false
          (generateTimeSlots mondayDate 30 [fullDayBooking] (some demoSettings))
        = TimeSelectionView.fullyBookedMessage := by decide

/-- C9 amended: when the resolved day hours mark the day closed the fallback
generator returns the empty list — the same value an open but fully booked day
produces — and the time-selection view shows the same fully-booked message. -/
theorem closed_day_returns_empty (date : DateVal) (durationMin : Nat)
    (bs : List Booking) (settings : Option Settings) (d : DayHours)
    (hd : dayHoursFor settings date.day = some d) (hclosed : d.isOpen = some false) :
    generateTimeSlots date durationMin bs settings = []
      ∧ timeSelectionView false (generateTimeSlots date durationMin bs settings)
        = TimeSelectionView.fullyBookedMessage := by
  have hw : resolveStartEndHour (dayHoursFor settings date.day) (calBehaviorOf settings)
      = HourRange.closedDay := by
    rw [hd]
    simp [resolveStartEndHour, hclosed]
  rw [generateTimeSlots_eq_nil_of_closed hw]
  exact ⟨rfl, rfl⟩

/-- Witness for C9 amended: the explicitly closed Monday fixture. -/
theorem closed_day_returns_empty_witness :
    generateTimeSlots mondayDate 30 [] (some closedMondaySettings) = []
      ∧ timeSelectionView false (generateTimeSlots mondayDate 30 [] (some closedMondaySettings))
        = TimeSelectionView.fullyBookedMessage :=
  closed_day_returns_empty mondayDate 30 [] (some closedMondaySettings)
    { isOpen := some false, start := some (9, 0), endTime := some (17, 0) }
    (by decide) (by decide)

/-- C10 counterexample: when the booking-settings fetch fails — no opening hours
resolvable from the service — the client substitutes the default 09:00-17:00
window instead of reporting a not-configured outcome, and the generator then
offers slots from that guessed window. -/
theorem default_window_substituted_counterexample :
    (getBookingSettings SettingsResponse.networkError).usingDefaults = true
      ∧ (getBookingSettings SettingsResponse.networkError).settings = defaultSettings
      ∧ ({ start := 540, stop := 570, value := 540 } : TimeSlot)
          ∈ generateTimeSlots mondayDate 30 []
            (some (getBookingSettings SettingsResponse.networkError).settings) := by decide

/-- C10 amended: the generator itself never invents a window — when neither
day-specific hours nor a calendarBehavior window resolve it returns the empty
list, with no distinct not-configured reason — but the settings client
substitutes the default 09:00-17:00 window (usingDefaults set) whenever the
settings fetch fails, so slot generation then proceeds from a guessed default. -/
theorem not_configured_amended (date : DateVal) (durationMin : Nat)
    (bs : List Booking) (settings : Option Settings)
    (hw : resolveStartEndHour (dayHoursFor settings date.day) (calBehaviorOf settings)
        = HourRange.notConfigured) :
    generateTimeSlots date durationMin bs settings = []
      ∧ ∀ (status : Nat) (body : Option SettingsBody),
          (getBookingSettings (SettingsResponse.httpResp false status body)).settings
            = defaultSettings
          ∧ (getBookingSettings (SettingsResponse.httpResp false status body)).usingDefaults
            = true :=
  ⟨generateTimeSlots_eq_nil_of_notConfigured hw, fun _ _ => ⟨rfl, rfl⟩⟩

/-- Witness for C10 amended: with no settings at all the generator returns no
slots, while a failed settings fetch yields the default window. -/
theorem not_configured_amended_witness :
    generateTimeSlots mondayDate 30 [] none = []
      ∧ ∀ (status : Nat) (body : Option SettingsBody),
          (getBookingSettings (SettingsResponse.httpResp false status body)).settings
            = defaultSettings
          ∧ (getBookingSettings (SettingsResponse.httpResp false status body)).usingDefaults
            = true :=
  not_configured_amended mondayDate 30 [] none (by decide)

/-- C5: if after the two catalog lookup passes some payload item still lacks a
truthy variantId, the checkout fails with the fixed missing-variant message and
status 400, and no session-creation request is issued: the result is the same for
every possible checkout-endpoint outcome and carries no payload at all, so no
partial submission of the resolvable items happens. -/
theorem missing_variant_fails_without_request (cartItems : List CartItem)
    (catalog : Option ProductsData) (getCheckoutPriceId : CartItem → Option String)
    (fetchRes : CheckoutFetch)
    (hmiss : (payloadItems catalog getCheckoutPriceId cartItems).any
        (fun i => !truthyStr i.variantId) = true) :
    createCheckoutSession cartItems catalog getCheckoutPriceId fetchRes
      = ({ success := false, error := some missingVariantMessage, status := some 400 },
          none) := by
  have h : ((payloadItems catalog getCheckoutPriceId cartItems).filter
      fun i => !truthyStr i.variantId).length > 0 := by
    simp only [List.any_eq_true] at hmiss
    obtain ⟨i, hi, hp⟩ := hmiss
    have : i ∈ (payloadItems catalog getCheckoutPriceId cartItems).filter
        fun i => !truthyStr i.variantId := List.mem_filter.mpr ⟨hi, hp⟩
    exact List.length_pos.mpr fun hnil => by simp [hnil] at this
  unfold createCheckoutSession
  rw [if_pos h]

/-- Witness for C5: a single unresolvable cart item makes the checkout fail with
the missing-variant error and no request, even though the endpoint would be
reachable. -/
theorem missing_variant_fails_without_request_witness :
    createCheckoutSession [unresolvedItem] none (fun item => item.stripePriceId)
        CheckoutFetch.threw
      = ({ success := false, error := some missingVariantMessage, status := some 400 },
          none) :=
  missing_variant_fails_without_request [unresolvedItem] none
    (fun item => item.stripePriceId) CheckoutFetch.threw (by decide)

/-- C6: createCheckoutSession reports success exactly when the variant validation
passes and the checkout response is an HTTP success whose JSON body carries both
the success flag and a non-empty checkout URL; if any of the three response
conditions fails, the result is a failure. -/
theorem checkout_success_iff (cartItems : List CartItem) (catalog : Option ProductsData)
    (getCheckoutPriceId : CartItem → Option String) (fetchRes : CheckoutFetch) :
    (createCheckoutSession cartItems catalog getCheckoutPriceId fetchRes).1.success = true
      ↔ ((payloadItems catalog getCheckoutPriceId cartItems).all
            (fun i => truthyStr i.variantId) = true
          ∧ ∃ status body, fetchRes = CheckoutFetch.resp true status true (some body)
              ∧ body.success = true ∧ truthyStr body.checkoutUrl = true) := by
  have hdual : ((payloadItems catalog getCheckoutPriceId cartItems).filter
        fun i => !truthyStr i.variantId).length > 0
      ↔ ¬ ((payloadItems catalog getCheckoutPriceId cartItems).all
            fun i => truthyStr i.variantId) = true := by
    constructor
    · intro hpos hall
      obtain ⟨i, hi⟩ := List.exists_mem_of_length_pos hpos
      obtain ⟨hmem, hneg⟩ := List.mem_filter.mp hi
      rw [List.all_eq_true] at hall
      have := hall i hmem
      simp [this] at hneg
    · intro hnall
      rw [List.all_eq_true] at hnall
      push_neg at hnall
      obtain ⟨i, hi, hp⟩ := hnall
      have hmem : i ∈ (payloadItems catalog getCheckoutPriceId cartItems).filter
          fun i => !truthyStr i.variantId := List.mem_filter.mpr ⟨hi, by simp [hp]⟩
      exact List.length_pos.mpr fun hnil => by simp [hnil] at hmem
  unfold createCheckoutSession
  by_cases hm : ((payloadItems catalog getCheckoutPriceId cartItems).filter
      fun i => !truthyStr i.variantId).length > 0
  · rw [if_pos hm]
    simp [hdual.mp hm]
  · rw [if_neg hm]
    have hall := not_not.mp (hdual.not.mp (by simpa using hm))
    cases fetchRes with
    | threw => simp
    | resp ok status ctJson body =>
      cases ctJson with
      | false => simp
      | true =>
        cases body with
        | none => simp
        | some data =>
          have hok2 : ok = true ∨ ok = false := by cases ok <;> simp
          rcases hok2 with hok | hok
          · subst hok
            by_cases hds : data.success = true
            · by_cases hdu : truthyStr data.checkoutUrl = true
              · simp only [hall, hds, hdu, Bool.and_self, if_true, true_and,
                  CheckoutFetch.resp.injEq, true_iff]
                exact ⟨status, data, ⟨rfl, rfl⟩, hds, hdu⟩
              · simp [hall, hds, hdu]
            · simp [hall, hds]
          · subst hok
            simp [hall]

/-- C7: once the backend has created the session (ok response, success flag, and
a non-empty checkout URL), the outcome of the abandoned-cart registration call
has no effect on the proxy response: for every tracking outcome — thrown, non-ok
HTTP, or unsuccessful body — the handler answers 200 with the created session
checkoutUrl, sessionId and orderId. -/
theorem tracking_failure_keeps_checkout_success (status : Nat) (d : BackendData)
    (track : TrackOutcome) (hsucc : d.success = true)
    (hurl : truthyStr d.checkoutUrl = true) :
    handleCheckoutBackendResponse (BackendFetch.json true status d) track
      = { status := 200, success := true, error := none, checkoutUrl := d.checkoutUrl
          sessionId := d.sessionId, orderId := d.orderId } := by
  simp [handleCheckoutBackendResponse, hsucc, hurl]

/-- Witness for C7: a thrown tracking call still yields the 200 session
response. -/
theorem tracking_failure_keeps_checkout_success_witness :
    handleCheckoutBackendResponse (BackendFetch.json true 200 backendOkData)
        TrackOutcome.threw
      = { status := 200, success := true, error := none
          checkoutUrl := backendOkData.checkoutUrl, sessionId := backendOkData.sessionId
          orderId := backendOkData.orderId } :=
  tracking_failure_keeps_checkout_success 200 backendOkData TrackOutcome.threw
    (by decide) (by decide)

/-- C8 counterexample: an upstream rejection whose message is "Out of stock: Hair
Serum" is not surfaced verbatim — the orchestrator replaces it with a fixed
locally constructed message. -/
theorem out_of_stock_replaced_counterexample :
    (createCheckoutSession [resolvedItem] none (fun item => item.stripePriceId)
        (CheckoutFetch.resp false 400 true (some stockBody))).1.error
      = some outOfStockMessage
    ∧ outOfStockMessage ≠ "Out of stock: Hair Serum" := by decide

/-- C8 amended: an upstream rejection message is surfaced verbatim only when it
does not mention stock: a message containing "Out of stock" or "out of stock" is
replaced wholesale by the fixed local message, and a message otherwise containing
"stock" is surfaced with the upstream text preserved but prefixed with
"Lagerproblem: ". -/
theorem stock_message_handling (cartItems : List CartItem) (catalog : Option ProductsData)
    (getCheckoutPriceId : CartItem → Option String) (status : Nat) (d : CheckoutBody)
    (msg : String)
    (hres : ((payloadItems catalog getCheckoutPriceId cartItems).filter
        fun i => !truthyStr i.variantId) = [])
    (herr : d.error = some msg) (hmsg : msg ≠ "") :
    (createCheckoutSession cartItems catalog getCheckoutPriceId
        (CheckoutFetch.resp false status true (some d))).1.error
      = some (if jsIncludes msg "Out of stock" || jsIncludes msg "out of stock" then
            outOfStockMessage
          else if jsIncludes msg "stock" then "Lagerproblem: " ++ msg
          else msg) := by
  simp only [createCheckoutSession]
  rw [hres]
  simp [deriveCheckoutErrorMessage, jsOr, truthyStr, herr, hmsg]

/-- Witness for C8 amended: an insufficient-stock message is surfaced with the
"Lagerproblem: " prefix, the upstream text kept as suffix. -/
theorem stock_message_handling_witness :
    (createCheckoutSession [resolvedItem] none (fun item => item.stripePriceId)
        (CheckoutFetch.resp false 400 true
          (some { success := false, checkoutUrl := none, sessionId := none
                  orderId := none
                  error := some "Insufficient stock for Hair Serum. Available: 0, Requested: 1"
                  message := none, errorMessage := none }))).1.error
      = some (if jsIncludes "Insufficient stock for Hair Serum. Available: 0, Requested: 1"
              "Out of stock"
            || jsIncludes "Insufficient stock for Hair Serum. Available: 0, Requested: 1"
              "out of stock" then
            outOfStockMessage
          else if jsIncludes "Insufficient stock for Hair Serum. Available: 0, Requested: 1"
              "stock" then
            "Lagerproblem: " ++ "Insufficient stock for Hair Serum. Available: 0, Requested: 1"
          else "Insufficient stock for Hair Serum. Available: 0, Requested: 1") :=
  stock_message_handling [resolvedItem] none (fun item => item.stripePriceId) 400
    { success := false, checkoutUrl := none, sessionId := none, orderId := none
      error := some "Insufficient stock for Hair Serum. Available: 0, Requested: 1"
      message := none, errorMessage := none }
    "Insufficient stock for Hair Serum. Available: 0, Requested: 1"
    (by decide) (by decide) (by decide)

end Glow

